import Mathlib

/-!
Verification of the GoLow redirect server (src/src/golow.go).

The program builds a rule table from an in-memory Config literal, registers
one HTTP handler per rule with non-empty path and URL, installs a catch-all
not-found handler redirecting to the default URL, and shuts down gracefully
on an interrupt signal.  The definitions below are a shallow embedding of
that code; pure request dispatch is modelled as a function from a request
path to the response the server writes.
-/

namespace GoLow

/-- One struct field as seen by the reflection loop in the rule handler:
a field name and the boolean value the handler reads with value.Bool(). -/
structure OptField where
  name : String
  value : Bool
deriving DecidableEq, Repr

/-- reflect.TypeOf applied to URLRule.RedirectOptions (golow.go line 37):
the Go type of the options field is the anonymous empty struct, so the
reflection loop sees this list of fields. -/
def redirectOptionsFields : List OptField := []

/-- URLRule from golow.go lines 34-38; the RedirectOptions field is the
empty struct, carried separately as redirectOptionsFields. -/
structure URLRule where
  Path : String
  URL : String
deriving DecidableEq, Repr

/-- Config from golow.go lines 28-31. -/
structure Config where
  FinalRedirect : String
  RedirectRules : List URLRule
deriving DecidableEq, Repr

/-- The in-memory configuration literal from golow.go line 45. -/
def conf : Config :=
  ⟨"https://example.com",
   [⟨"/go", "https://golang.org"⟩, ⟨"/nh", "https://nhalstead.me"⟩]⟩

/-- http.StatusTemporaryRedirect. -/
def StatusTemporaryRedirect : Nat := 307

/-- The status computation of the rule handler closure (golow.go lines
58-74): statusCode starts at 307 and the loop over the option fields sets
it to 307 again when a field named "permanently" holds true. -/
def handlerStatus (fields : List OptField) : Nat :=
  fields.foldl
    (fun statusCode f =>
      if f.name == "permanently" && f.value then 307 else statusCode)
    307

/-- The response an HTTP redirect writes: Location header and status. -/
structure Response where
  location : String
  status : Nat
deriving DecidableEq, Repr

/-- The rule handler closure (golow.go lines 57-80): redirects to the
captured url with the computed status. -/
def ruleHandler (url : String) (fields : List OptField) : Response :=
  ⟨url, handlerStatus fields⟩

/-- The catch-all NotFoundHandler (golow.go lines 86-89): redirects to the
Config's default URL with status 307. -/
def notFoundHandler (c : Config) : Response :=
  ⟨c.FinalRedirect, StatusTemporaryRedirect⟩

/-- The rules actually registered with the router: the loop at golow.go
lines 49-50 skips any rule whose Path or URL is empty. -/
def registeredRules (c : Config) : List URLRule :=
  c.RedirectRules.filter (fun v => v.Path != "" && v.URL != "")

/-- Request dispatch: the mux router tries routes in registration order and
a template without variables matches exactly its own path; an unmatched
request falls through to the NotFoundHandler (golow.go lines 47-89). -/
def dispatch (c : Config) (path : String) : Response :=
  match (registeredRules c).find? (fun v => v.Path == path) with
  | some v => ruleHandler v.URL redirectOptionsFields
  | none => notFoundHandler c

theorem handlerStatus_eq_307 (fields : List OptField) :
    handlerStatus fields = 307 := by
  unfold handlerStatus
  induction fields with
  | nil => rfl
  | cons f fs ih =>
      rw [List.foldl_cons]
      simpa using ih

/-- C1: for every rule handler and every option field list — in particular
whatever value a permanently field holds — the computed status code is 307:
the handler initialises statusCode to 307 and the permanently-true branch
assigns 307 again, so no option value changes the emitted status. -/
theorem rule_handler_status_always_307 (url : String) (fields : List OptField) :
    (ruleHandler url fields).status = StatusTemporaryRedirect := by
  simp [ruleHandler, StatusTemporaryRedirect, handlerStatus_eq_307]

theorem mem_registeredRules (c : Config) (v : URLRule)
    (hv : v ∈ c.RedirectRules) (hp : v.Path ≠ "") (hu : v.URL ≠ "") :
    v ∈ registeredRules c := by
  unfold registeredRules
  refine List.mem_filter.mpr ⟨hv, ?_⟩
  simp [hp, hu]

theorem registeredRules_sub (c : Config) (v : URLRule)
    (hv : v ∈ registeredRules c) : v ∈ c.RedirectRules :=
  List.mem_of_mem_filter hv

/-- C2: for a rule of a configuration whose rule paths are pairwise
distinct, with non-empty path and non-empty URL, a request to that rule's
path is answered by the handler registered for that very rule, so the
Location is that rule's URL (with status 307). -/
theorem matched_rule_gets_own_url (c : Config) (v : URLRule)
    (hv : v ∈ c.RedirectRules) (hp : v.Path ≠ "") (hu : v.URL ≠ "")
    (hnd : (c.RedirectRules.map URLRule.Path).Nodup) :
    dispatch c v.Path = ⟨v.URL, StatusTemporaryRedirect⟩ := by
  have hreg : v ∈ registeredRules c := mem_registeredRules c v hv hp hu
  have hsome : ((registeredRules c).find? (fun r => r.Path == v.Path)).isSome := by
    rw [List.find?_isSome]
    exact ⟨v, hreg, by simp⟩
  obtain ⟨w, hw⟩ := Option.isSome_iff_exists.mp hsome
  have hwp : w.Path = v.Path := by
    have hpw := List.find?_some hw
    simpa using hpw
  have hwmem : w ∈ c.RedirectRules :=
    registeredRules_sub c w (List.mem_of_find?_eq_some hw)
  have hweq : w = v := List.inj_on_of_nodup_map hnd hwmem hv hwp
  unfold dispatch
  rw [hw, hweq]
  simp [ruleHandler, redirectOptionsFields, handlerStatus, StatusTemporaryRedirect]

/-- Witness for C2 at the concrete configuration and its first rule. -/
theorem matched_rule_gets_own_url_witness :
    dispatch conf "/go" = ⟨"https://golang.org", StatusTemporaryRedirect⟩ :=
  matched_rule_gets_own_url conf ⟨"/go", "https://golang.org"⟩
    (by decide) (by decide) (by decide) (by decide)

theorem dispatch_default_of_no_match (c : Config) (path : String)
    (h : ∀ v ∈ registeredRules c, v.Path ≠ path) :
    dispatch c path = ⟨c.FinalRedirect, StatusTemporaryRedirect⟩ := by
  unfold dispatch
  have hnone : (registeredRules c).find? (fun v => v.Path == path) = none := by
    rw [List.find?_eq_none]
    intro v hv
    simpa using h v hv
  rw [hnone]
  rfl

/-- C3: a request whose path differs from every registered rule's path is
answered by the catch-all not-found handler: a redirect to the Config's
default target URL with status 307. -/
theorem unmatched_request_default (c : Config) (path : String)
    (h : ∀ v ∈ registeredRules c, v.Path ≠ path) :
    dispatch c path = ⟨c.FinalRedirect, StatusTemporaryRedirect⟩ :=
  dispatch_default_of_no_match c path h

/-- Witness for C3 at the concrete configuration and an unregistered path. -/
theorem unmatched_request_default_witness :
    dispatch conf "/unknown" = ⟨"https://example.com", StatusTemporaryRedirect⟩ :=
  unmatched_request_default conf "/unknown" (by decide)

/-- C4: a rule whose path or URL is the empty string is never registered
with the router, and a request to the empty path matches no registered rule
(every registered rule has a non-empty path) and falls through to the
default redirect. -/
theorem empty_rule_never_registered (c : Config) (v : URLRule)
    (h : v.Path = "" ∨ v.URL = "") :
    v ∉ registeredRules c ∧
      dispatch c "" = ⟨c.FinalRedirect, StatusTemporaryRedirect⟩ := by
  constructor
  · intro hmem
    have hcond := (List.mem_filter.mp hmem).2
    rcases h with h | h <;> simp [h] at hcond
  · refine dispatch_default_of_no_match c "" ?_
    intro w hw
    have hcond := (List.mem_filter.mp hw).2
    intro hwp
    simp [hwp] at hcond

/-- Witness for C4: a configuration containing an empty-path rule; the rule
is dropped and the empty path redirects to the default. -/
theorem empty_rule_never_registered_witness :
    (⟨"", "https://x.com"⟩ : URLRule) ∉
        registeredRules ⟨"https://example.com", [⟨"", "https://x.com"⟩]⟩ ∧
      dispatch ⟨"https://example.com", [⟨"", "https://x.com"⟩]⟩ "" =
        ⟨"https://example.com", StatusTemporaryRedirect⟩ :=
  empty_rule_never_registered ⟨"https://example.com", [⟨"", "https://x.com"⟩]⟩
    ⟨"", "https://x.com"⟩ (Or.inl rfl)

/-- C5 counterexample: the claim that the field iteration over a rule's
options value visits exactly one field (named permanently, a bool) is
false on the code: RedirectOptions is the anonymous empty struct, so the
iteration visits zero fields. -/
theorem redirectOptions_not_one_field : ¬ redirectOptionsFields.length = 1 := by
  decide

/-- C5 amended: RedirectOptions defines no fields at all; the reflection
loop in the handler therefore visits zero fields, its body never runs, and
the status stays at the initial 307. -/
theorem redirectOptions_no_fields :
    redirectOptionsFields = [] ∧
      handlerStatus redirectOptionsFields = StatusTemporaryRedirect :=
  ⟨rfl, rfl⟩

/-- C9: the configuration is exactly the in-memory literal — default
target https://example.com, /go mapping to https://golang.org and /nh
mapping to https://nhalstead.me — and requests to /go and /nh redirect to
those URLs with status 307. -/
theorem conf_literal_and_sample_requests :
    conf = ⟨"https://example.com",
      [⟨"/go", "https://golang.org"⟩, ⟨"/nh", "https://nhalstead.me"⟩]⟩ ∧
      dispatch conf "/go" = ⟨"https://golang.org", StatusTemporaryRedirect⟩ ∧
      dispatch conf "/nh" = ⟨"https://nhalstead.me", StatusTemporaryRedirect⟩ := by
  refine ⟨rfl, ?_, ?_⟩ <;> decide

/-- C10: dispatch is total with respect to redirects: every request path
produces a redirect response with status 307, whose Location is either the
URL of a registered rule matching the path or the Config's default target;
no path yields a non-redirect response. -/
theorem dispatch_total_redirect (c : Config) (path : String) :
    (dispatch c path).status = StatusTemporaryRedirect ∧
      ((∃ v, v ∈ registeredRules c ∧ v.Path = path ∧
          (dispatch c path).location = v.URL) ∨
        (dispatch c path).location = c.FinalRedirect) := by
  unfold dispatch
  cases hfind : (registeredRules c).find? (fun v => v.Path == path) with
  | none =>
      exact ⟨rfl, Or.inr rfl⟩
  | some w =>
      refine ⟨by simp [ruleHandler, StatusTemporaryRedirect, handlerStatus_eq_307], Or.inl ?_⟩
      refine ⟨w, List.mem_of_find?_eq_some hfind, ?_, rfl⟩
      have hpw := List.find?_some hfind
      simpa using hpw

end GoLow

namespace GoLowLifecycle

/-- The signals relevant to the shutdown discussion in golow.go lines
110-113: only os.Interrupt is passed to signal.Notify; SIGTERM, SIGQUIT
and SIGKILL are, per the source comment, not caught. -/
inductive OSSignal
  | interrupt
  | sigterm
  | sigquit
  | sigkill
deriving DecidableEq, Repr

/-- The signal set registered with signal.Notify (golow.go line 113). -/
def handledSignals : List OSSignal := [OSSignal.interrupt]

/-- Server lifecycle phases of the spec's state machine. -/
inductive Phase
  | listening
  | draining
  | stopped
deriving DecidableEq, Repr

/-- Effect of a delivered signal on a listening server: a handled signal
unblocks the main flow (the receive on the signal channel at golow.go line
116) and starts the drain; an unhandled one leaves the server listening. -/
def phaseAfterSignal (s : OSSignal) : Phase :=
  if handledSignals.contains s then Phase.draining else Phase.listening

/-- Whether a phase accepts new connections. -/
def acceptsNew (p : Phase) : Bool := p == Phase.listening

/-- Default of the graceful-timeout command-line duration flag, in seconds
(golow.go line 42: time.Second*15). -/
def gracefulTimeoutDefaultSeconds : Nat := 15

/-- An in-flight connection, described by the time (in seconds after the
signal) at which its request would complete. -/
structure Conn where
  finishTime : Nat
deriving DecidableEq, Repr

/-- Outcome of the drain for one in-flight connection. -/
inductive ConnOutcome
  | completed
  | forciblyClosed
deriving DecidableEq, Repr

/-- Modelled from the spec: the drain semantics of the HTTP server's
Shutdown call with the deadline context of golow.go line 119 (the Shutdown
implementation is library code, not in src): an in-flight connection that
finishes within the grace period completes; one still open at the deadline
is forcibly closed. -/
def shutdownOutcome (grace : Nat) (c : Conn) : ConnOutcome :=
  if c.finishTime ≤ grace then ConnOutcome.completed else ConnOutcome.forciblyClosed

/-- The post-signal main flow (golow.go lines 116-128): drain the in-flight
connections against the grace period, then os.Exit(0) — the result of
Shutdown is discarded, so the exit code does not depend on the outcomes. -/
def afterSignal (grace : Nat) (conns : List Conn) : List ConnOutcome × Nat :=
  (conns.map (shutdownOutcome grace), 0)

/-- Outcome of the asynchronous ListenAndServe call (golow.go lines
99-104): either it serves, or binding/serving fails with an error. -/
inductive ServeResult
  | ok
  | bindError (msg : String)
deriving DecidableEq, Repr

/-- State of the main control flow once the serve goroutine has run its
course: the log lines produced, whether main is blocked on the signal
channel, and the exit status if the process has exited. -/
structure MainState where
  logs : List String
  blockedOnSignal : Bool
  exited : Option Nat
deriving DecidableEq, Repr

/-- The serve goroutine body (golow.go lines 99-104): it logs a start
message, and a ListenAndServe error is only written to the log; in either
case main keeps blocking on the signal channel and no exit happens. -/
def afterStartup (res : ServeResult) : MainState :=
  match res with
  | ServeResult.ok => ⟨["Server Started"], true, none⟩
  | ServeResult.bindError m => ⟨["Server Started", m], true, none⟩

/-- C6: shutdown is triggered exactly by the interrupt signal (no other
signal is handled); a draining server accepts no new connections; the
grace-period flag defaults to 15 seconds; and an in-flight connection
completes if and only if it finishes within the grace period, being
forcibly closed otherwise. -/
theorem shutdown_trigger_and_grace :
    (∀ s : OSSignal, phaseAfterSignal s = Phase.draining ↔ s = OSSignal.interrupt) ∧
      acceptsNew Phase.draining = false ∧
      gracefulTimeoutDefaultSeconds = 15 ∧
      (∀ (grace : Nat) (c : Conn),
        (shutdownOutcome grace c = ConnOutcome.completed ↔ c.finishTime ≤ grace) ∧
        (shutdownOutcome grace c = ConnOutcome.forciblyClosed ↔ ¬ c.finishTime ≤ grace)) := by
  refine ⟨?_, rfl, rfl, ?_⟩
  · intro s
    cases s <;> simp [phaseAfterSignal, handledSignals]
  · intro grace c
    unfold shutdownOutcome
    by_cases h : c.finishTime ≤ grace <;> simp [h]

/-- C7: on the signal-driven shutdown path the process exit code is 0
unconditionally: for every grace period and every set of in-flight
connections — whether all drain cleanly or some are forcibly closed — the
exit component of the post-signal state is 0. -/
theorem exit_code_always_zero (grace : Nat) (conns : List Conn) :
    (afterSignal grace conns).2 = 0 := rfl

/-- C8: a bind or serve failure is only logged: the error message ends up
in the log, the process records no exit status on that path, and the main
control flow still blocks waiting for the signal — the same as on a
successful start. -/
theorem bind_failure_logged_only (m : String) :
    (afterStartup (ServeResult.bindError m)).exited = none ∧
      (afterStartup (ServeResult.bindError m)).blockedOnSignal = true ∧
      m ∈ (afterStartup (ServeResult.bindError m)).logs ∧
      (∀ res : ServeResult, (afterStartup res).exited = none ∧
        (afterStartup res).blockedOnSignal = true) := by
  refine ⟨rfl, rfl, ?_, ?_⟩
  · simp [afterStartup]
  · intro res
    cases res <;> exact ⟨rfl, rfl⟩

end GoLowLifecycle
